import Mathlib

/-!
Shallow embedding of `campaign/models.py` (class `CampaignXManager` and the
Django model classes it manipulates) from the WeVoteServer repository.

The persistent store (Django ORM tables) is modelled as explicit lists of
rows carried in a `Store` value; every operation takes the store and returns
the (possibly updated) store together with the structured result dictionary
the Python method builds.  Randomness (`generate_random_string`) is modelled
as an explicit oracle `rng : Nat → String` with an index, and the current
date (`generate_date_as_integer`) as an explicit `today : Nat` parameter.
Case-insensitive Django lookups (`__iexact`) are modelled by lower-casing
both sides; exact lookups by plain equality.
-/

namespace WeVote

/-- Modelled from the spec: `positive_value_exists` (wevote_functions.functions,
outside src/) — Python truthiness for strings: a non-empty string is truthy. -/
def posStr (s : String) : Bool := s ≠ ""

/-- Modelled from the spec: `positive_value_exists` on integers — a positive
count is truthy, zero is falsy. -/
def posNat (n : Nat) : Bool := 0 < n

/-- ASCII lower-casing of one character (kernel-computable). -/
def lowerChar (c : Char) : Char :=
  if 65 ≤ c.toNat ∧ c.toNat ≤ 90 then Char.ofNat (c.toNat + 32) else c

/-- ASCII lower-casing of a string (kernel-computable form of `str.lower`). -/
def strLower (s : String) : String := ⟨s.data.map lowerChar⟩

/-- Django `__iexact` lookup: case-insensitive string equality. -/
def iexact (a b : String) : Bool := strLower a == strLower b

/-- Row of the `CampaignX` table (campaign/models.py, class CampaignX).
Fields not used by any claim (photo URLs, victory goal, description of
moderation reasons, timestamps) are omitted. -/
structure CampaignX where
  we_vote_id : String
  campaign_title : String
  campaign_description : String
  final_election_date_as_integer : Option Nat
  in_draft_mode : Bool
  is_blocked_by_we_vote : Bool
  is_in_team_review_mode : Bool
  is_not_promoted_by_we_vote : Bool
  is_still_active : Bool
  is_ok_to_promote_on_we_vote : Bool
  seo_friendly_path : Option String
  started_by_voter_we_vote_id : String
  supporters_count : Nat
  supporters_count_minimum_ignored : Bool
  deriving Repr, DecidableEq

/-- Row of the `CampaignXOwner` table. -/
structure CampaignXOwner where
  campaignx_we_vote_id : String
  organization_we_vote_id : String
  voter_we_vote_id : String
  deriving Repr, DecidableEq

/-- Row of the `CampaignXSupporter` table.  `id` is the auto-increment primary
key (creation order); `supporter_endorsement` is nullable in the schema. -/
structure CampaignXSupporter where
  id : Nat
  campaign_supported : Bool
  campaignx_we_vote_id : String
  voter_we_vote_id : String
  organization_we_vote_id : String
  supporter_endorsement : Option String
  visibility_blocked_by_we_vote : Bool
  visible_to_public : Bool
  deriving Repr, DecidableEq

/-- Row of the `OrganizationTeamMember` table (organization/models.py, an
external collaborator of this module; only the fields read here are kept). -/
structure OrganizationTeamMember where
  organization_we_vote_id : String
  voter_we_vote_id : String
  can_edit_campaignx_owned_by_organization : Bool
  can_moderate_campaignx_owned_by_organization : Bool
  can_send_updates_for_campaignx_owned_by_organization : Bool
  deriving Repr, DecidableEq

/-- Row of the `CampaignXSEOFriendlyPath` table. -/
structure CampaignXSEOFriendlyPath where
  campaignx_we_vote_id : String
  campaign_title : String
  base_pathname_string : String
  pathname_modifier : Option String
  final_pathname_string : String
  deriving Repr, DecidableEq

/-- Modelled from the spec: a voter-directory row (voter.models, external
collaborator) — resolves a voter id to its linked organization id. -/
structure Voter where
  we_vote_id : String
  linked_organization_we_vote_id : String
  deriving Repr, DecidableEq

/-- The persistent store: one list of rows per logical table, in storage
(creation) order. -/
structure Store where
  campaigns : List CampaignX
  owners : List CampaignXOwner
  supporters : List CampaignXSupporter
  team_members : List OrganizationTeamMember
  seo_paths : List CampaignXSEOFriendlyPath
  voters : List Voter
  deriving Repr, DecidableEq

/-- Django `.values_list(...).distinct()` feeding a Python set: deduplication
of a list of strings (membership is what matters; this variant keeps the last
occurrence). -/
def distinct : List String → List String
  | [] => []
  | a :: rest => if a ∈ rest then distinct rest else a :: distinct rest

/-- The filter used on `OrganizationTeamMember` rows by
`is_voter_campaignx_owner` and `retrieve_voter_owned_campaignx_we_vote_ids`:
the voter matches and any of the three campaign rights flags is set. -/
def campaignxRightsTeamFilter (voter_we_vote_id : String) (t : OrganizationTeamMember) : Bool :=
  iexact t.voter_we_vote_id voter_we_vote_id &&
    (t.can_edit_campaignx_owned_by_organization ||
     t.can_moderate_campaignx_owned_by_organization ||
     t.can_send_updates_for_campaignx_owned_by_organization)

/-- The distinct organization ids of the teams the voter belongs to with any
campaign rights flag (the `values_list(..., flat=True).distinct()` query
shared verbatim by `is_voter_campaignx_owner` and
`retrieve_voter_owned_campaignx_we_vote_ids`). -/
def voter_teams_with_campaignx_rights (db : Store) (voter_we_vote_id : String) :
    List String :=
  distinct ((db.team_members.filter (campaignxRightsTeamFilter voter_we_vote_id)).map
    (fun t => t.organization_we_vote_id))

/-- `CampaignXManager.is_voter_campaignx_owner` (campaign/models.py:471-521):
direct Owner row for (campaign, voter), else team membership with any of the
three campaign rights flags whose organization has an Owner row for the
campaign.  The store queries are assumed not to raise here; the exception
behaviour of this method is modelled separately
(`is_voter_campaignx_owner_with_store_failures`). -/
def is_voter_campaignx_owner (db : Store) (campaignx_we_vote_id voter_we_vote_id : String) :
    Bool :=
  let direct_count :=
    (db.owners.filter (fun o =>
      iexact o.campaignx_we_vote_id campaignx_we_vote_id &&
      iexact o.voter_we_vote_id voter_we_vote_id)).length
  let voter_is_campaignx_owner := posNat direct_count
  if voter_is_campaignx_owner then voter_is_campaignx_owner
  else
    let teams := voter_teams_with_campaignx_rights db voter_we_vote_id
    if 0 < teams.length then
      posNat ((db.owners.filter (fun o =>
        iexact o.campaignx_we_vote_id campaignx_we_vote_id &&
        teams.contains o.organization_we_vote_id)).length)
    else voter_is_campaignx_owner

/-- `CampaignXManager.retrieve_voter_owned_campaignx_we_vote_ids`
(campaign/models.py:1886-1932): campaign ids from direct Owner rows for the
voter, unioned (Python set union) with campaign ids of Owner rows whose
organization is a team the voter belongs to with any campaign rights flag. -/
def retrieve_voter_owned_campaignx_we_vote_ids (db : Store) (voter_we_vote_id : String) :
    List String :=
  let campaignx_owner_ids :=
    distinct ((db.owners.filter (fun o =>
      iexact o.voter_we_vote_id voter_we_vote_id)).map (fun o => o.campaignx_we_vote_id))
  let teams := voter_teams_with_campaignx_rights db voter_we_vote_id
  let team_member_ids :=
    if 0 < teams.length then
      distinct ((db.owners.filter (fun o =>
        teams.contains o.organization_we_vote_id)).map (fun o => o.campaignx_we_vote_id))
    else []
  distinct (campaignx_owner_ids ++ team_member_ids)

/-- `CampaignXManager.is_voter_campaignx_owner` with the possibility that each
of its three store queries raises a store-layer error (lines 485-519).  The
except clauses of this method name the Django model classes `CampaignXOwner`
and `OrganizationTeamMember`, which are not exception classes: a store-layer
error matches neither clause (Python in fact raises a TypeError when an
except clause names a class that does not inherit from BaseException), so the
error escapes the method instead of being converted into a result. -/
def is_voter_campaignx_owner_with_store_failures (db : Store)
    (campaignx_we_vote_id voter_we_vote_id : String)
    (owner_query_raises team_query_raises team_owner_query_raises : Bool) :
    Except String Bool :=
  if owner_query_raises then
    .error "store-layer error in CampaignXOwner query escapes: except CampaignXOwner names a model class, not an exception class"
  else
    let direct_count :=
      (db.owners.filter (fun o =>
        iexact o.campaignx_we_vote_id campaignx_we_vote_id &&
        iexact o.voter_we_vote_id voter_we_vote_id)).length
    if posNat direct_count then .ok true
    else if team_query_raises then
      .error "store-layer error in OrganizationTeamMember query escapes: except OrganizationTeamMember names a model class, not an exception class"
    else
      let teams := voter_teams_with_campaignx_rights db voter_we_vote_id
      if 0 < teams.length then
        if team_owner_query_raises then
          .error "store-layer error in CampaignXOwner team query escapes: except CampaignXOwner names a model class, not an exception class"
        else
          .ok (posNat ((db.owners.filter (fun o =>
            iexact o.campaignx_we_vote_id campaignx_we_vote_id &&
            teams.contains o.organization_we_vote_id)).length))
      else .ok false

/-! ## Supporter ledger: repair, retrieve, recount -/

/-- Insertion into a list sorted ascending by primary key: models the
`order_by` on `id` in `repair_campaignx_supporter`. -/
def insertById (s : CampaignXSupporter) :
    List CampaignXSupporter → List CampaignXSupporter
  | [] => [s]
  | t :: ts => if s.id ≤ t.id then s :: t :: ts else t :: insertById s ts

/-- Sort supporter rows ascending by primary key. -/
def sortById (l : List CampaignXSupporter) : List CampaignXSupporter :=
  l.foldr insertById []

/-- The running state of the duplicate-merging while loop in
`repair_campaignx_supporter` (campaign/models.py:1521-1544). -/
structure RepairFoldState where
  supporter_endorsement_to_keep : Option String
  supporter_endorsement_to_keep_length : Nat
  visible_to_public : Bool
  visibility_blocked_by_we_vote : Bool
  deriving Repr, DecidableEq

/-- One iteration of the merging loop.  `none` models the TypeError that
`len(campaignx_supporter_temp.supporter_endorsement)` raises when the
endorsement column is NULL; it is caught by the outer except clause. -/
def repairFoldStep (st : RepairFoldState) (temp : CampaignXSupporter) :
    Option RepairFoldState :=
  match temp.supporter_endorsement with
  | none => none
  | some e =>
    let st :=
      if st.supporter_endorsement_to_keep_length < e.length then
        { st with supporter_endorsement_to_keep := some e,
                  supporter_endorsement_to_keep_length := if posStr e then e.length else 0 }
      else st
    let st :=
      if st.visible_to_public then st
      else { st with visible_to_public := temp.visible_to_public }
    let st :=
      if st.visibility_blocked_by_we_vote then st
      else { st with visibility_blocked_by_we_vote := temp.visibility_blocked_by_we_vote }
    some st

/-- The merging loop over the duplicate rows after the first. -/
def repairFold (st : RepairFoldState) :
    List CampaignXSupporter → Option RepairFoldState
  | [] => some st
  | t :: ts =>
    match repairFoldStep st t with
    | none => none
    | some st2 => repairFold st2 ts

/-- Result dictionary of `repair_campaignx_supporter`.
`campaignx_supporter` is always None and `campaignx_supporter_repaired` is
never set to True in the source, so both are omitted. -/
structure RepairCampaignxSupporterResult where
  status : String
  success : Bool
  campaignx_supporter_found : Bool
  deriving Repr, DecidableEq

/-- `CampaignXManager.repair_campaignx_supporter` (campaign/models.py:
1496-1598).  Orders the duplicate rows for (campaign, voter) by creation
order, folds endorsement length and visibility flags over the first 25, saves
the first row and deletes the rest of those 25.

Source fidelity notes, mirrored here deliberately:
the merged longest endorsement is assigned to the attribute
`supporter_endorsement_to_keep`, which is not a field of the model, so the
saved row keeps its original `supporter_endorsement`; and the organization
display re-mirroring block is guarded by
`positive_value_exists(linked_organization_we_vote_id)` on a local variable
that is still the empty string at that point, so it never runs (only
`organization_we_vote_id` is refreshed from the voter directory). -/
def repair_campaignx_supporter (db : Store)
    (campaignx_we_vote_id voter_we_vote_id : String) :
    Store × RepairCampaignxSupporterResult :=
  if posStr campaignx_we_vote_id && posStr voter_we_vote_id then
    let rows := sortById (db.supporters.filter (fun s =>
      s.campaignx_we_vote_id == campaignx_we_vote_id &&
      s.voter_we_vote_id == voter_we_vote_id))
    match rows with
    | [] => (db, ⟨"REPAIR_CAMPAIGNX_SUPPORTER_FOUND_WITH_WE_VOTE_ID ", true, false⟩)
    | [_] => (db, ⟨"REPAIR_CAMPAIGNX_SUPPORTER_FOUND_ONE_WITH_WE_VOTE_ID ", true, true⟩)
    | first :: rest =>
      let st0 : RepairFoldState :=
        { supporter_endorsement_to_keep := first.supporter_endorsement
          supporter_endorsement_to_keep_length :=
            match first.supporter_endorsement with
            | some e => if posStr e then e.length else 0
            | none => 0
          visible_to_public := first.visible_to_public
          visibility_blocked_by_we_vote := first.visibility_blocked_by_we_vote }
      match repairFold st0 (rest.take 24) with
      | none =>
        (db, ⟨"REPAIR_CAMPAIGNX_SUPPORTER_FOUND_MULTIPLE_WITH_WE_VOTE_ID REPAIR_CAMPAIGNX_SUPPORTER_EXCEPTION: TypeError ",
          false, true⟩)
      | some st =>
        let organization_we_vote_id :=
          match db.voters.find? (fun v => v.we_vote_id == voter_we_vote_id) with
          | some voter => voter.linked_organization_we_vote_id
          | none => first.organization_we_vote_id
        let first_saved := { first with
          visible_to_public := st.visible_to_public,
          visibility_blocked_by_we_vote := st.visibility_blocked_by_we_vote,
          organization_we_vote_id := organization_we_vote_id }
        let deleted_ids := (rest.take 24).map (fun s => s.id)
        let supporters2 := db.supporters.filterMap (fun s =>
          if s.id == first.id then some first_saved
          else if deleted_ids.contains s.id then none
          else some s)
        ({ db with supporters := supporters2 },
         ⟨"REPAIR_CAMPAIGNX_SUPPORTER_FOUND_MULTIPLE_WITH_WE_VOTE_ID ", true, true⟩)
  else
    (db, ⟨"REPAIR_CAMPAIGNX_SUPPORTER_NOT_FOUND-MISSING_VARIABLES ", false, false⟩)

/-- Result dictionary of `retrieve_campaignx_supporter`. -/
structure RetrieveCampaignxSupporterResult where
  status : String
  success : Bool
  campaignx_supporter : Option CampaignXSupporter
  campaignx_supporter_found : Bool
  deriving Repr, DecidableEq

/-- A value stored in a Python result dictionary. -/
inductive ResultValue
  | boolVal (b : Bool)
  | supporterVal (s : Option CampaignXSupporter)
  | stringVal (s : String)
  deriving Repr, DecidableEq

/-- The result dictionary literally built at the end of
`retrieve_campaignx_supporter` (campaign/models.py:1656-1662), with its exact
keys.  Needed because the caller of the recursive retrieve reads keys that
are not present in this dictionary. -/
def retrieveSupporterResultDict (r : RetrieveCampaignxSupporterResult) :
    List (String × ResultValue) :=
  [("status", .stringVal r.status),
   ("success", .boolVal r.success),
   ("campaignx_supporter", .supporterVal r.campaignx_supporter),
   ("campaignx_supporter_found", .boolVal r.campaignx_supporter_found)]

/-- `CampaignXManager.retrieve_campaignx_supporter` instantiated with
`recursion_ok=False` (the second, post-repair lookup): with more than one row
it returns the first row found and appends no status tag. -/
def retrieve_campaignx_supporter_no_recursion (db : Store)
    (campaignx_we_vote_id voter_we_vote_id : String) :
    RetrieveCampaignxSupporterResult :=
  if posStr campaignx_we_vote_id && posStr voter_we_vote_id then
    let rows := db.supporters.filter (fun s =>
      s.campaignx_we_vote_id == campaignx_we_vote_id &&
      s.voter_we_vote_id == voter_we_vote_id)
    match rows with
    | [] => ⟨"CAMPAIGNX_SUPPORTER_NOT_FOUND_WITH_WE_VOTE_ID ", true, none, false⟩
    | [s] => ⟨"CAMPAIGNX_SUPPORTER_FOUND_WITH_WE_VOTE_ID ", true, some s, true⟩
    | s :: _ => ⟨"", true, some s, true⟩
  else ⟨"CAMPAIGNX_SUPPORTER_NOT_FOUND-MISSING_VARIABLES ", false, none, false⟩

/-- `CampaignXManager.retrieve_campaignx_supporter` (campaign/models.py:
1600-1663) with `recursion_ok=True`.  When more than one row is found it
repairs, retrieves again with `recursion_ok=False`, and then reads the keys
`campaign_supporter_found` and `campaign_supporter` from the second result
dictionary; those keys do not exist (the dictionary keys carry `campaignx`),
so the lookup raises a KeyError that the enclosing except clause converts
into a failed result. -/
def retrieve_campaignx_supporter (db : Store)
    (campaignx_we_vote_id voter_we_vote_id : String) :
    Store × RetrieveCampaignxSupporterResult :=
  if posStr campaignx_we_vote_id && posStr voter_we_vote_id then
    let rows := db.supporters.filter (fun s =>
      s.campaignx_we_vote_id == campaignx_we_vote_id &&
      s.voter_we_vote_id == voter_we_vote_id)
    if 1 < rows.length then
      let repair_pair := repair_campaignx_supporter db campaignx_we_vote_id voter_we_vote_id
      let db1 := repair_pair.1
      let second := retrieve_campaignx_supporter_no_recursion db1 campaignx_we_vote_id voter_we_vote_id
      let dict := retrieveSupporterResultDict second
      match dict.lookup "campaign_supporter_found", dict.lookup "campaign_supporter" with
      | some (.boolVal f), some (.supporterVal s) =>
        (db1, ⟨repair_pair.2.status ++ second.status, second.success, s, f⟩)
      | _, _ =>
        (db1, ⟨repair_pair.2.status ++ "CAMPAIGNX_SUPPORTER_NOT_FOUND_EXCEPTION: KeyError campaign_supporter_found ",
          false, none, false⟩)
    else
      match rows with
      | [s] => (db, ⟨"CAMPAIGNX_SUPPORTER_FOUND_WITH_WE_VOTE_ID ", true, some s, true⟩)
      | _ => (db, ⟨"CAMPAIGNX_SUPPORTER_NOT_FOUND_WITH_WE_VOTE_ID ", true, none, false⟩)
  else (db, ⟨"CAMPAIGNX_SUPPORTER_NOT_FOUND-MISSING_VARIABLES ", false, none, false⟩)

/-- Replace the first campaign whose `we_vote_id` matches: models saving the
single object returned by `CampaignX.objects.get`. -/
def replaceFirstCampaign :
    List CampaignX → String → CampaignX → List CampaignX
  | [], _, _ => []
  | c :: cs, cid, updated =>
    if c.we_vote_id == cid then updated :: cs
    else c :: replaceFirstCampaign cs cid updated

/-- The slice of `CampaignXManager.update_or_create_campaignx`
(campaign/models.py:2022-2293) reachable from
`update_campaignx_supporters_count`: it is called with a
`campaignx_we_vote_id` and `update_values = {supporters_count: n}` only.
The campaign is retrieved by `we_vote_id`; when found, `supporters_count` is
written only when `positive_value_exists(n)` holds, i.e. only a positive
count is saved.  When the campaign does not exist, the create branch reads
the missing key `campaign_description` from update_values, and the KeyError
is caught and converted into a failed result.  Returns (store, success,
status). -/
def update_or_create_campaignx_supporters_count_slice (db : Store)
    (campaignx_we_vote_id : String) (n : Nat) : Store × Bool × String :=
  if posStr campaignx_we_vote_id then
    match db.campaigns.find? (fun c => c.we_vote_id == campaignx_we_vote_id) with
    | some campaignx =>
      if posNat n then
        let updated := { campaignx with supporters_count := n }
        ({ db with campaigns := replaceFirstCampaign db.campaigns campaignx_we_vote_id updated },
         true, "CAMPAIGNX_UPDATED ")
      else
        (db, true, "CAMPAIGNX_NOT_UPDATED-NO_CHANGES_FOUND ")
    | none =>
      (db, false, "CAMPAIGNX_NOT_CREATED: KeyError campaign_description ")
  else
    (db, false, "CREATE_CAMPAIGNX_VARIABLES_MISSING UPDATE_CAMPAIGNX_VARIABLES_MISSING COULD_NOT_UPDATE_OR_CREATE: ")

/-- Result dictionary of `update_campaignx_supporters_count`. -/
structure SupportersCountResult where
  success : Bool
  status : String
  supporters_count : Nat
  deriving Repr, DecidableEq

/-- `CampaignXManager.update_campaignx_supporters_count`
(campaign/models.py:1987-2020): counts the supporter rows for the campaign
with `campaign_supported=True` and hands the count to
`update_or_create_campaignx` for writing back onto the campaign record. -/
def update_campaignx_supporters_count (db : Store) (campaignx_we_vote_id : String) :
    Store × SupportersCountResult :=
  let supporters_count := (db.supporters.filter (fun s =>
    iexact s.campaignx_we_vote_id campaignx_we_vote_id && s.campaign_supported)).length
  let res := update_or_create_campaignx_supporters_count_slice db campaignx_we_vote_id supporters_count
  (res.1, ⟨res.2.1, res.2.2, supporters_count⟩)

/-! ## Slug / SEO-friendly path allocator -/

/-- An ASCII lower-case letter or digit. -/
def isLowerAlphanum (c : Char) : Bool :=
  (97 ≤ c.toNat && c.toNat ≤ 122) || (48 ≤ c.toNat && c.toNat ≤ 57)

/-- Split a character list into maximal runs of lower-case alphanumerics,
treating every other character as a separator. -/
def wordsByNonAlnum : List Char → List (List Char)
  | [] => [[]]
  | c :: cs =>
    let rest := wordsByNonAlnum cs
    if isLowerAlphanum c then
      match rest with
      | [] => [[c]]
      | w :: ws => (c :: w) :: ws
    else [] :: rest

/-- Join words with single hyphens. -/
def joinHyphen : List (List Char) → List Char
  | [] => []
  | [w] => w
  | w :: ws => w ++ #['-'].toList ++ joinHyphen ws

/-- Modelled from the spec: `django.utils.text.slugify` (external collaborator)
— lower-case, strip punctuation, collapse whitespace and hyphens into single
hyphens (ASCII fragment; transliteration of diacritics is out of scope). -/
def slugify (s : String) : String :=
  ⟨joinHyphen ((wordsByNonAlnum (s.data.map lowerChar)).filter (fun w => w ≠ []))⟩

/-- Result dictionary of `generate_seo_friendly_path`. -/
structure SeoFriendlyPathResult where
  seo_friendly_path : String
  seo_friendly_path_created : Bool
  seo_friendly_path_found : Bool
  status : String
  success : Bool
  deriving Repr, DecidableEq

/-- The local variables of the disambiguation loop of
`generate_seo_friendly_path` (campaign/models.py:345-423).  `rng_index`
counts how many random suffixes have been drawn from the randomness oracle
(`generate_random_string` is modelled as an explicit oracle `rng : Nat →
String`, spec: a 4-character suffix from a confusable-character-free
lower-case-alphanumeric alphabet). -/
structure SeoLoopState where
  final_pathname_string : String
  pathname_modifier : Option String
  pathname_modifiers_already_reviewed_list : List String
  owned_by_another_campaignx : Bool
  continue_retrieving : Bool
  rng_index : Nat
  status : String
  deriving Repr, DecidableEq

/-- Outcome of the disambiguation loop: either the inner 50-attempt safety
valve fired (early return with `CAMPAIGNX_MODIFIER_SAFETY_VALVE_EXCEEDED`),
or the loop exited normally with a final state. -/
inductive SeoLoopOutcome
  | modifierSafetyValveExceeded (st : SeoLoopState)
  | done (st : SeoLoopState)
  deriving Repr, DecidableEq

/-- Condition of the inner while loop:
`pathname_modifier not in pathname_modifiers_already_reviewed_list`
(`None` is not in a list of strings). -/
def seoModifierNotReviewed (st : SeoLoopState) : Bool :=
  match st.pathname_modifier with
  | none => true
  | some m => !(st.pathname_modifiers_already_reviewed_list.contains m)

/-- The inner while loop of the disambiguation (campaign/models.py:353-413):
while the current modifier has not been reviewed, check the 50-attempt
safety valve, draw a fresh random suffix, append it to the reviewed list, and
test the candidate path against the path-history table and then the live
campaign table.  The fuel argument only bounds the recursion; it is chosen
above the 50-attempt valve, which always fires first. -/
def seoInnerLoop (db : Store) (rng : Nat → String) (base : String) :
    Nat → Nat → SeoLoopState → SeoLoopOutcome
  | 0, _, st => .modifierSafetyValveExceeded st
  | fuel + 1, modifier_safety_valve_count, st =>
    if seoModifierNotReviewed st then
      if 50 < modifier_safety_valve_count then .modifierSafetyValveExceeded st
      else
        let modifier := rng st.rng_index
        let final_pathname_string_to_test := base ++ "-" ++ modifier
        let st := { st with
          pathname_modifier := some modifier,
          rng_index := st.rng_index + 1,
          pathname_modifiers_already_reviewed_list :=
            st.pathname_modifiers_already_reviewed_list ++ [modifier] }
        let st :=
          if posNat ((db.seo_paths.filter (fun p =>
               iexact p.final_pathname_string final_pathname_string_to_test)).length) then
            st
          else if posNat ((db.campaigns.filter (fun c =>
               match c.seo_friendly_path with
               | some sp => iexact sp final_pathname_string_to_test
               | none => false)).length) then
            { st with status := st.status ++ "FOUND_IN_ANOTHER_CAMPAIGNX2 " }
          else
            { st with continue_retrieving := false,
                      final_pathname_string := final_pathname_string_to_test,
                      owned_by_another_campaignx := false,
                      status := st.status ++ "NO_PATHNAME_COLLISION " }
        seoInnerLoop db rng base fuel (modifier_safety_valve_count + 1) st
    else .done st

/-- The outer while loop
(`while continue_retrieving and safety_valve_count < 1000`): the fuel is the
number of remaining iterations before `safety_valve_count` reaches 1000. -/
def seoOuterLoop (db : Store) (rng : Nat → String) (base : String) :
    Nat → SeoLoopState → SeoLoopOutcome
  | 0, st => .done st
  | fuel + 1, st =>
    if st.continue_retrieving then
      match seoInnerLoop db rng base 60 0 st with
      | .modifierSafetyValveExceeded st2 => .modifierSafetyValveExceeded st2
      | .done st2 => seoOuterLoop db rng base fuel st2
    else .done st

/-- `CampaignXManager.generate_seo_friendly_path`
(campaign/models.py:214-469).  Returns the updated store, the result
dictionary, and how many random suffixes were drawn from the oracle.  The
store queries are modelled as not raising (the except branches for query
failures are unreachable in this model). -/
def generate_seo_friendly_path (db : Store) (rng : Nat → String)
    (campaignx_we_vote_id : String) (campaignx_title : Option String) :
    Store × SeoFriendlyPathResult × Nat :=
  if !posStr campaignx_we_vote_id then
    (db, ⟨"", false, false, "MISSING_CAMPAIGNX_WE_VOTE_ID ", false⟩, 0)
  else
    match campaignx_title with
    | none => (db, ⟨"", false, false, "MISSING_CAMPAIGN_TITLE ", false⟩, 0)
    | some title =>
      if title = "" then (db, ⟨"", false, false, "MISSING_CAMPAIGN_TITLE ", false⟩, 0)
      else
        let base_pathname_string := slugify title
        if !posStr base_pathname_string then
          (db, ⟨"", false, false, "MISSING_BASE_PATHNAME_STRING ", false⟩, 0)
        else if posNat ((db.seo_paths.filter (fun p =>
            p.campaignx_we_vote_id == campaignx_we_vote_id &&
            iexact p.final_pathname_string base_pathname_string)).length) then
          (db, ⟨base_pathname_string, false, true, "PATHNAME_FOUND-OWNED_BY_CAMPAIGNX ", true⟩, 0)
        else
          let owned_in_path_table := posNat ((db.seo_paths.filter (fun p =>
            iexact p.final_pathname_string base_pathname_string)).length)
          let owned_in_campaign_table :=
            if !owned_in_path_table then
              posNat ((db.campaigns.filter (fun c =>
                match c.seo_friendly_path with
                | some sp => iexact sp base_pathname_string
                | none => false)).length)
            else false
          let owned_by_another_campaignx := owned_in_path_table || owned_in_campaign_table
          let status :=
            (if owned_in_path_table then "PATHNAME_FOUND-OWNED_BY_ANOTHER_CAMPAIGNX " else "") ++
            (if owned_in_campaign_table then "PATHNAME_FOUND_IN_ANOTHER_CAMPAIGNX " else "")
          if !owned_by_another_campaignx then
            let row : CampaignXSEOFriendlyPath :=
              { campaignx_we_vote_id := campaignx_we_vote_id
                campaign_title := title
                base_pathname_string := base_pathname_string
                pathname_modifier := none
                final_pathname_string := base_pathname_string }
            ({ db with seo_paths := db.seo_paths ++ [row] },
             ⟨base_pathname_string, true, true,
              status ++ "CAMPAIGNX_SEO_FRIENDLY_PATH_CREATED FINAL_PATHNAME_STRING_GENERATED ", true⟩, 0)
          else
            let st0 : SeoLoopState :=
              { final_pathname_string := ""
                pathname_modifier := none
                pathname_modifiers_already_reviewed_list := []
                owned_by_another_campaignx := true
                continue_retrieving := true
                rng_index := 0
                status := status }
            match seoOuterLoop db rng base_pathname_string 1000 st0 with
            | .modifierSafetyValveExceeded st =>
              (db, ⟨st.final_pathname_string, false, false,
                st.status ++ "CAMPAIGNX_MODIFIER_SAFETY_VALVE_EXCEEDED ", false⟩, st.rng_index)
            | .done st =>
              if st.owned_by_another_campaignx then
                (db, ⟨st.final_pathname_string, false, false,
                  st.status ++ "FAILED_TO_FIND_UNIQUE_URL ", false⟩, st.rng_index)
              else if !posStr st.final_pathname_string then
                (db, ⟨st.final_pathname_string, false, false,
                  st.status ++ "MISSING_REQUIRED_VARIABLE ", false⟩, st.rng_index)
              else
                let row : CampaignXSEOFriendlyPath :=
                  { campaignx_we_vote_id := campaignx_we_vote_id
                    campaign_title := title
                    base_pathname_string := base_pathname_string
                    pathname_modifier := st.pathname_modifier
                    final_pathname_string := st.final_pathname_string }
                ({ db with seo_paths := db.seo_paths ++ [row] },
                 ⟨st.final_pathname_string, true, true,
                  st.status ++ "CAMPAIGNX_SEO_FRIENDLY_PATH_CREATED FINAL_PATHNAME_STRING_GENERATED ", true⟩,
                 st.rng_index)

/-! ## Discovery / listing engine -/

/-- campaign/models.py:23. -/
def FINAL_ELECTION_DATE_COOL_DOWN : Nat := 7

/-- campaign/models.py:24. -/
def SUPPORTERS_COUNT_MINIMUM_FOR_LISTING : Nat := 5

/-- The eligibility `Q` filter of the no-search branch of
`retrieve_campaignx_list` (campaign/models.py:957-967): published, not
blocked, not in team review, promoted, still active, ok to promote, and
(minimum supporter count reached or waived) and (no final election date or
final election date beyond today plus the cool-down). -/
def campaignx_list_default_filter (today : Nat) (c : CampaignX) : Bool :=
  (!c.in_draft_mode && !c.is_blocked_by_we_vote && !c.is_in_team_review_mode &&
   !c.is_not_promoted_by_we_vote && c.is_still_active && c.is_ok_to_promote_on_we_vote) &&
  (decide (SUPPORTERS_COUNT_MINIMUM_FOR_LISTING ≤ c.supporters_count) ||
    c.supporters_count_minimum_ignored) &&
  (match c.final_election_date_as_integer with
   | none => true
   | some d => decide (today + FINAL_ELECTION_DATE_COOL_DOWN < d))

/-- `CampaignXManager.retrieve_campaignx_list` (campaign/models.py:872-1003)
in its no-search, no-state-filter call mode (`search_text` and
`limit_to_this_state_code` empty; the search branch at lines 902-945 is not
modelled).  `today` stands for `generate_date_as_integer()`.

The two consecutive `order_by` calls at lines 979-980 are not cumulative in
Django: the second call supersedes the first, so the emitted query orders
only by `in_draft_mode` descending.  Rows tied on `in_draft_mode` are
returned by the database in an unspecified order; the model keeps them in
store order (stable sort). -/
def retrieve_campaignx_list (db : Store) (today : Nat)
    (including_started_by_voter_we_vote_id : Option String) (limit : Nat) :
    List CampaignX :=
  let queryset_filter := fun (c : CampaignX) =>
    campaignx_list_default_filter today c ||
    (match including_started_by_voter_we_vote_id with
     | some v =>
       iexact c.started_by_voter_we_vote_id v ||
       (retrieve_voter_owned_campaignx_we_vote_ids db v).contains c.we_vote_id
     | none => false)
  let filtered := db.campaigns.filter queryset_filter
  let ordered := List.insertionSort (fun a b => b.in_draft_mode ≤ a.in_draft_mode) filtered
  ordered.take limit

/-! ## Concrete stores used as test inputs -/

/-- A store with every table empty. -/
def emptyStore : Store :=
  { campaigns := [], owners := [], supporters := [], team_members := [],
    seo_paths := [], voters := [] }

/-- A published, unblocked, active, promotable campaign with the minimum
supporter count and no final election date. -/
def sampleCampaign : CampaignX :=
  { we_vote_id := "wv02camp1"
    campaign_title := "Save The Bay"
    campaign_description := ""
    final_election_date_as_integer := none
    in_draft_mode := false
    is_blocked_by_we_vote := false
    is_in_team_review_mode := false
    is_not_promoted_by_we_vote := false
    is_still_active := true
    is_ok_to_promote_on_we_vote := true
    seo_friendly_path := none
    started_by_voter_we_vote_id := "wv02voter1"
    supporters_count := 5
    supporters_count_minimum_ignored := false }

/-- A supporter row template for campaign wv02camp1 / voter wv02voter1. -/
def sampleSupporter : CampaignXSupporter :=
  { id := 1
    campaign_supported := true
    campaignx_we_vote_id := "wv02camp1"
    voter_we_vote_id := "wv02voter1"
    organization_we_vote_id := "wv02org1"
    supporter_endorsement := some "a"
    visibility_blocked_by_we_vote := false
    visible_to_public := false }

/-- Store for the C1 counterexample: the campaign record caches a supporter
count of 1, but its only supporter row has toggled `campaign_supported` off,
so the exact count is 0. -/
def storeRecountZero : Store :=
  { emptyStore with
    campaigns := [{ sampleCampaign with supporters_count := 1 }]
    supporters := [{ sampleSupporter with campaign_supported := false }] }

/-- Store for the C1 witness: the campaign record caches a supporter count of
1 while two supporter rows have the supported flag set. -/
def storeRecountTwo : Store :=
  { emptyStore with
    campaigns := [{ sampleCampaign with supporters_count := 1 }]
    supporters :=
      [sampleSupporter,
       { sampleSupporter with
         id := 2
         voter_we_vote_id := "wv02voter2" }] }

/-- Store for C2: two duplicate supporter rows for the same (campaign, voter);
the first (by creation order) has the short endorsement, the second has the
longest endorsement and a visibility flag set. -/
def storeDuplicateSupporters : Store :=
  { emptyStore with
    supporters :=
      [{ sampleSupporter with supporter_endorsement := some "a" },
       { sampleSupporter with
         id := 2
         supporter_endorsement := some "bb"
         visible_to_public := true }] }

/-- Store for C9: the same duplicate-row situation, kept separate so the two
claims do not share inputs. -/
def storeDuplicateSupportersRetrieve : Store :=
  { emptyStore with
    supporters :=
      [{ sampleSupporter with supporter_endorsement := some "a" },
       { sampleSupporter with
         id := 2
         supporter_endorsement := some "bb"
         visible_to_public := true }] }

/-- Store for C3: another campaign (wv02camp9) already holds the base slug
for the title, forcing disambiguation. -/
def storeBaseSlugTaken : Store :=
  { emptyStore with
    seo_paths :=
      [{ campaignx_we_vote_id := "wv02camp9"
         campaign_title := "Save The Bay"
         base_pathname_string := "save-the-bay"
         pathname_modifier := none
         final_pathname_string := "save-the-bay" }] }

/-- Store for C4: the base slug and the first randomly suffixed candidate are
both already taken by other campaigns. -/
def storeSuffixCollision : Store :=
  { emptyStore with
    seo_paths :=
      [{ campaignx_we_vote_id := "wv02camp9"
         campaign_title := "Save The Bay"
         base_pathname_string := "save-the-bay"
         pathname_modifier := none
         final_pathname_string := "save-the-bay" },
       { campaignx_we_vote_id := "wv02camp8"
         campaign_title := "Save The Bay"
         base_pathname_string := "save-the-bay"
         pathname_modifier := some "abcd"
         final_pathname_string := "save-the-bay-abcd" }] }

/-- Randomness oracle drawing "abcd" first and fresh values afterwards. -/
def rngAbcdThenFresh : Nat → String :=
  fun n => if n = 0 then "abcd" else "efgh"

/-- Randomness oracle always drawing "wxyz". -/
def rngWxyz : Nat → String := fun _ => "wxyz"

/-- Store for C8: two otherwise identical public-listing-eligible campaigns
stored with the lower supporter count first. -/
def storeTwoEligible : Store :=
  { emptyStore with
    campaigns :=
      [{ sampleCampaign with supporters_count := 5 },
       { sampleCampaign with we_vote_id := "wv02camp2", supporters_count := 10 }] }

/-- Store for the C6 witness: an otherwise eligible campaign with only 3
supporters but the minimum waived. -/
def waiverCampaign : CampaignX :=
  { sampleCampaign with supporters_count := 3, supporters_count_minimum_ignored := true }

/-- Store holding only `waiverCampaign`. -/
def storeWaiver : Store := { emptyStore with campaigns := [waiverCampaign] }

/-- C7 witness: campaign whose final election date is today (20261012) plus
the 7-day cool-down exactly. -/
def coolDownExcluded : CampaignX :=
  { sampleCampaign with
    we_vote_id := "wv02camp3"
    final_election_date_as_integer := some 20261019 }

/-- C7 witness: campaign whose final election date is today (20261012) plus
8. -/
def coolDownIncluded : CampaignX :=
  { sampleCampaign with
    we_vote_id := "wv02camp4"
    final_election_date_as_integer := some 20261020 }

/-- Store holding the two cool-down witness campaigns. -/
def storeCoolDown : Store :=
  { emptyStore with campaigns := [coolDownExcluded, coolDownIncluded] }

/-! ## Helper lemmas -/

theorem length_filter_pos {α : Type} (p : α → Bool) (l : List α) :
    0 < (l.filter p).length ↔ ∃ a ∈ l, p a = true := by
  simp [List.length_pos, List.filter_eq_nil_iff]

theorem mem_distinct (a : String) : ∀ (l : List String), a ∈ distinct l ↔ a ∈ l := by
  intro l
  induction l with
  | nil => simp [distinct]
  | cons b rest ih =>
    by_cases hb : b ∈ rest
    · simp only [distinct, if_pos hb, List.mem_cons, ih]
      constructor
      · exact fun h => Or.inr h
      · rintro (rfl | h)
        · exact hb
        · exact h
    · simp [distinct, if_neg hb, ih]

/-- Characterization of `is_voter_campaignx_owner`: a direct Owner row, or an
Owner row through a rights-bearing team of the voter. -/
theorem is_voter_campaignx_owner_eq_true_iff (db : Store) (c v : String) :
    is_voter_campaignx_owner db c v = true ↔
      (∃ o ∈ db.owners, iexact o.campaignx_we_vote_id c = true ∧
        iexact o.voter_we_vote_id v = true) ∨
      (∃ o ∈ db.owners, iexact o.campaignx_we_vote_id c = true ∧
        (voter_teams_with_campaignx_rights db v).contains o.organization_we_vote_id = true) := by
  unfold is_voter_campaignx_owner
  by_cases hd : 0 < (db.owners.filter (fun o =>
      iexact o.campaignx_we_vote_id c && iexact o.voter_we_vote_id v)).length
  · have hdirect : (∃ o ∈ db.owners, iexact o.campaignx_we_vote_id c = true ∧
        iexact o.voter_we_vote_id v = true) := by
      obtain ⟨o, ho, hp⟩ := (length_filter_pos _ _).mp hd
      exact ⟨o, ho, by simpa [Bool.and_eq_true] using hp⟩
    simp [posNat, hd, hdirect]
  · have hnodirect : ¬ (∃ o ∈ db.owners, iexact o.campaignx_we_vote_id c = true ∧
        iexact o.voter_we_vote_id v = true) := by
      intro h
      obtain ⟨o, ho, h1, h2⟩ := h
      exact hd ((length_filter_pos _ _).mpr ⟨o, ho, by simp [h1, h2]⟩)
    simp only [posNat]
    rw [if_neg (by simp [hd])]
    by_cases ht : 0 < (voter_teams_with_campaignx_rights db v).length
    · rw [if_pos ht, decide_eq_true_eq, length_filter_pos]
      simp only [Bool.and_eq_true]
      constructor
      · rintro ⟨o, ho, h1, h2⟩
        exact Or.inr ⟨o, ho, h1, h2⟩
      · rintro (h | ⟨o, ho, h1, h2⟩)
        · exact absurd h hnodirect
        · exact ⟨o, ho, h1, h2⟩
    · have hteams : voter_teams_with_campaignx_rights db v = [] := by
        cases h : voter_teams_with_campaignx_rights db v with
        | nil => rfl
        | cons a l => exact absurd (by simp [h]) ht
      rw [if_neg ht]
      simp only [decide_eq_true_eq]
      constructor
      · intro h
        exact absurd h hd
      · rintro (h | ⟨o, ho, h1, h2⟩)
        · exact absurd h hnodirect
        · rw [hteams] at h2
          simp at h2

/-- Characterization of membership in
`retrieve_voter_owned_campaignx_we_vote_ids`. -/
theorem mem_retrieve_voter_owned_iff (db : Store) (v x : String) :
    x ∈ retrieve_voter_owned_campaignx_we_vote_ids db v ↔
      (∃ o ∈ db.owners, iexact o.voter_we_vote_id v = true ∧
        o.campaignx_we_vote_id = x) ∨
      (∃ o ∈ db.owners,
        (voter_teams_with_campaignx_rights db v).contains o.organization_we_vote_id = true ∧
        o.campaignx_we_vote_id = x) := by
  unfold retrieve_voter_owned_campaignx_we_vote_ids
  by_cases ht : 0 < (voter_teams_with_campaignx_rights db v).length
  · simp only [ht, if_pos, mem_distinct, List.mem_append, List.mem_map, List.mem_filter]
    constructor
    · rintro (⟨o, ⟨ho, hp⟩, rfl⟩ | ⟨o, ⟨ho, hp⟩, rfl⟩)
      · exact Or.inl ⟨o, ho, hp, rfl⟩
      · exact Or.inr ⟨o, ho, hp, rfl⟩
    · rintro (⟨o, ho, hp, rfl⟩ | ⟨o, ho, hp, rfl⟩)
      · exact Or.inl ⟨o, ⟨ho, hp⟩, rfl⟩
      · exact Or.inr ⟨o, ⟨ho, hp⟩, rfl⟩
  · have hteams : voter_teams_with_campaignx_rights db v = [] := by
      cases h : voter_teams_with_campaignx_rights db v with
      | nil => rfl
      | cons a l => exact absurd (by simp [h]) ht
    simp only [hteams, List.length_nil, lt_self_iff_false, if_false, List.append_nil]
    simp only [mem_distinct, List.mem_map, List.mem_filter]
    constructor
    · rintro ⟨o, ⟨ho, hp⟩, rfl⟩
      exact Or.inl ⟨o, ho, hp, rfl⟩
    · rintro (⟨o, ho, hp, rfl⟩ | ⟨o, ho, hp, hx⟩)
      · exact ⟨o, ⟨ho, hp⟩, rfl⟩
      · exact absurd hp (by simp)

/-! ## Claim theorems -/

/-- C5: for every campaign id c and voter id v over the same stored Owner and
team-membership data, `is_voter_campaignx_owner` returns true exactly when c
is among `retrieve_voter_owned_campaignx_we_vote_ids` for v (membership of
campaign ids taken case-insensitively, as every id comparison in both
functions is `__iexact`): both resolve ownership as a direct Owner row or a
rights-bearing team whose organization has an Owner row for the campaign. -/
theorem is_voter_campaignx_owner_iff_mem_voter_owned_ids (db : Store) (c v : String) :
    is_voter_campaignx_owner db c v = true ↔
      ∃ x ∈ retrieve_voter_owned_campaignx_we_vote_ids db v, iexact x c = true := by
  rw [is_voter_campaignx_owner_eq_true_iff]
  constructor
  · rintro (⟨o, ho, hc, hv⟩ | ⟨o, ho, hc, ht⟩)
    · exact ⟨o.campaignx_we_vote_id,
        (mem_retrieve_voter_owned_iff db v _).mpr (Or.inl ⟨o, ho, hv, rfl⟩), hc⟩
    · exact ⟨o.campaignx_we_vote_id,
        (mem_retrieve_voter_owned_iff db v _).mpr (Or.inr ⟨o, ho, ht, rfl⟩), hc⟩
  · rintro ⟨x, hx, hxc⟩
    rcases (mem_retrieve_voter_owned_iff db v x).mp hx with ⟨o, ho, hv, rfl⟩ | ⟨o, ho, ht, rfl⟩
    · exact Or.inl ⟨o, ho, hxc, hv⟩
    · exact Or.inr ⟨o, ho, hxc, ht⟩

theorem find_replaceFirstCampaign (cid : String) (u c : CampaignX)
    (hu : u.we_vote_id = c.we_vote_id) :
    ∀ (l : List CampaignX), l.find? (fun x => x.we_vote_id == cid) = some c →
      (replaceFirstCampaign l cid u).find? (fun x => x.we_vote_id == cid) = some u := by
  intro l
  induction l with
  | nil => intro h; simp [List.find?] at h
  | cons a as ih =>
    intro h
    by_cases ha : (a.we_vote_id == cid) = true
    · have hac : a = c := by
        simp only [List.find?, ha] at h
        exact Option.some.inj h
      subst hac
      have hu2 : (u.we_vote_id == cid) = true := by
        rw [hu]; exact ha
      simp only [replaceFirstCampaign, if_pos ha, List.find?, hu2]
    · have ha2 : (a.we_vote_id == cid) = false := by simpa using ha
      simp only [List.find?, ha2] at h
      simp only [replaceFirstCampaign, if_neg ha, List.find?, ha2]
      exact ih h

/-- The update slice of `update_or_create_campaignx` writes a positive
supporters_count onto the retrieved campaign and reports success. -/
theorem slice_updates_when_positive (db : Store) (cid : String) (c : CampaignX) (n : Nat)
    (hcid : cid ≠ "")
    (hfound : db.campaigns.find? (fun x => x.we_vote_id == cid) = some c)
    (hn : 0 < n) :
    update_or_create_campaignx_supporters_count_slice db cid n =
      ({ db with campaigns :=
          replaceFirstCampaign db.campaigns cid { c with supporters_count := n } },
       true, "CAMPAIGNX_UPDATED ") := by
  unfold update_or_create_campaignx_supporters_count_slice
  rw [if_pos (by simp [posStr, hcid]), hfound]
  simp [posNat, hn]

/-- C1 (amended): for a campaign id with an existing Campaign record, the
recount computes the exact number of supporter rows with
`campaign_supported=True`, and, whenever that count is positive, writes it
back onto the Campaign record and returns success; a count of zero is
computed and returned but not written (see the zero counterexample). -/
theorem update_campaignx_supporters_count_writes_back_positive
    (db : Store) (cid : String) (c : CampaignX)
    (hcid : cid ≠ "")
    (hfound : db.campaigns.find? (fun x => x.we_vote_id == cid) = some c)
    (hpos : 0 < (db.supporters.filter (fun s =>
      iexact s.campaignx_we_vote_id cid && s.campaign_supported)).length) :
    (update_campaignx_supporters_count db cid).2.success = true ∧
    (update_campaignx_supporters_count db cid).2.supporters_count =
      (db.supporters.filter (fun s =>
        iexact s.campaignx_we_vote_id cid && s.campaign_supported)).length ∧
    (update_campaignx_supporters_count db cid).1.campaigns.find?
        (fun x => x.we_vote_id == cid) =
      some { c with supporters_count :=
        (db.supporters.filter (fun s =>
          iexact s.campaignx_we_vote_id cid && s.campaign_supported)).length } := by
  have hslice := slice_updates_when_positive db cid c _ hcid hfound hpos
  unfold update_campaignx_supporters_count
  simp only [hslice]
  refine ⟨trivial, trivial, ?_⟩
  exact find_replaceFirstCampaign cid
    { c with supporters_count := (db.supporters.filter (fun s =>
        iexact s.campaignx_we_vote_id cid && s.campaign_supported)).length }
    c rfl db.campaigns hfound

/-- C1 witness: concrete run of the amended theorem on a store with two
supported rows and a stale cached count of 1. -/
theorem update_campaignx_supporters_count_writes_back_positive_witness :
    ("wv02camp1" ≠ "") ∧
    ((update_campaignx_supporters_count storeRecountTwo "wv02camp1").2.success = true ∧
     (update_campaignx_supporters_count storeRecountTwo "wv02camp1").2.supporters_count =
       (storeRecountTwo.supporters.filter (fun s =>
         iexact s.campaignx_we_vote_id "wv02camp1" && s.campaign_supported)).length ∧
     (update_campaignx_supporters_count storeRecountTwo "wv02camp1").1.campaigns.find?
         (fun x => x.we_vote_id == "wv02camp1") =
       some { { sampleCampaign with supporters_count := 1 } with supporters_count :=
         (storeRecountTwo.supporters.filter (fun s =>
           iexact s.campaignx_we_vote_id "wv02camp1" && s.campaign_supported)).length }) :=
  ⟨by decide,
   update_campaignx_supporters_count_writes_back_positive storeRecountTwo "wv02camp1"
     { sampleCampaign with supporters_count := 1 } (by decide) (by decide) (by decide)⟩

/-- C1 counterexample: with one supporter row whose supported flag is off, the
recount computes 0 and returns success, but the store is left untouched: the
campaign record keeps its stale cached count of 1, because
`update_or_create_campaignx` only writes `supporters_count` when
`positive_value_exists` holds for it. -/
theorem update_campaignx_supporters_count_zero_not_written :
    (update_campaignx_supporters_count storeRecountZero "wv02camp1").2.supporters_count = 0 ∧
    (update_campaignx_supporters_count storeRecountZero "wv02camp1").2.success = true ∧
    (update_campaignx_supporters_count storeRecountZero "wv02camp1").1 = storeRecountZero ∧
    ((update_campaignx_supporters_count storeRecountZero "wv02camp1").1.campaigns.map
      (fun c => c.supporters_count)) = [1] := by
  decide

/-- C2: evaluation of `repair_campaignx_supporter` on two duplicate rows whose
longest endorsement sits on the second row.  Exactly one row remains and its
visibility flag is the OR of the originals, but its endorsement is the first
row's "a", not the longest "bb": the merged endorsement is assigned to the
non-field attribute `supporter_endorsement_to_keep` and is lost. -/
theorem repair_campaignx_supporter_keeps_first_endorsement :
    ((repair_campaignx_supporter storeDuplicateSupporters "wv02camp1" "wv02voter1").1.supporters.filter
      (fun s => s.campaignx_we_vote_id == "wv02camp1" && s.voter_we_vote_id == "wv02voter1")).map
      (fun s => (s.supporter_endorsement, s.visible_to_public)) = [(some "a", true)] ∧
    (repair_campaignx_supporter storeDuplicateSupporters "wv02camp1" "wv02voter1").2.success = true := by
  decide

/-- C9: on a store with two duplicate supporter rows, the duplicate branch of
`retrieve_campaignx_supporter` repairs the store down to a single row, but
then reads the result keys `campaign_supporter_found` / `campaign_supporter`
(which do not exist — the real keys carry `campaignx`), so the method returns
success=False with no supporter instead of the single repaired row. -/
theorem retrieve_campaignx_supporter_duplicate_path_returns_failure :
    (retrieve_campaignx_supporter storeDuplicateSupportersRetrieve "wv02camp1" "wv02voter1").2.success = false ∧
    (retrieve_campaignx_supporter storeDuplicateSupportersRetrieve "wv02camp1" "wv02voter1").2.campaignx_supporter_found = false ∧
    (retrieve_campaignx_supporter storeDuplicateSupportersRetrieve "wv02camp1" "wv02voter1").2.campaignx_supporter = none ∧
    ((retrieve_campaignx_supporter storeDuplicateSupportersRetrieve "wv02camp1" "wv02voter1").1.supporters.filter
      (fun s => s.campaignx_we_vote_id == "wv02camp1" && s.voter_we_vote_id == "wv02voter1")).length = 1 := by
  decide

/-- C10: a store-layer failure raised during the CampaignXOwner query of
`is_voter_campaignx_owner` escapes the method (its except clause names the
model class `CampaignXOwner`, which cannot match a store exception), while
the same call without a failure returns the pure result: exceptions do cross
the module boundary for this operation. -/
theorem store_failure_escapes_is_voter_campaignx_owner :
    (is_voter_campaignx_owner_with_store_failures emptyStore "wv02camp1" "wv02voter1"
        true false false).isOk = false ∧
    is_voter_campaignx_owner_with_store_failures emptyStore "wv02camp1" "wv02voter1"
        false false false =
      .ok (is_voter_campaignx_owner emptyStore "wv02camp1" "wv02voter1") := by
  constructor
  · rfl
  · rfl

/-- C8: evaluation of the public listing on two eligible campaigns stored with
the lower supporter count first.  The two consecutive `order_by` calls leave
only the `in_draft_mode` ordering in force, so the result is not ordered by
descending supporters_count: the count-5 campaign precedes the count-10
one. -/
theorem retrieve_campaignx_list_order_ignores_supporters_count :
    ((retrieve_campaignx_list storeTwoEligible 20261012 none 25).map
      (fun c => c.supporters_count)) = [5, 10] ∧
    ((retrieve_campaignx_list storeTwoEligible 20261012 none 25).map
      (fun c => c.we_vote_id)) = ["wv02camp1", "wv02camp2"] := by
  decide

/-- C3 counterexample: when the base slug is already held by another campaign,
the first call disambiguates with a random suffix, and the second call with
the same (id, title) does not find that path again (the found check only
matches the base slug): it allocates a different suffixed slug and reports it
as newly created, not merely found. -/
theorem generate_seo_friendly_path_second_call_differs :
    (generate_seo_friendly_path storeBaseSlugTaken rngAbcdThenFresh "wv02camp1"
        (some "Save The Bay")).2.1.seo_friendly_path = "save-the-bay-abcd" ∧
    (generate_seo_friendly_path
        (generate_seo_friendly_path storeBaseSlugTaken rngAbcdThenFresh "wv02camp1"
          (some "Save The Bay")).1
        rngWxyz "wv02camp1" (some "Save The Bay")).2.1.seo_friendly_path =
      "save-the-bay-wxyz" ∧
    (generate_seo_friendly_path
        (generate_seo_friendly_path storeBaseSlugTaken rngAbcdThenFresh "wv02camp1"
          (some "Save The Bay")).1
        rngWxyz "wv02camp1" (some "Save The Bay")).2.1.seo_friendly_path_created = true := by
  decide

/-- C3 (amended): when the base slug derived from the title is not already in
use by any campaign, allocating twice with the same (id, title) yields the
same slug both times and the second call reports it as found, not newly
created. -/
theorem generate_seo_friendly_path_repeat_when_base_free
    (db : Store) (rng1 rng2 : Nat → String) (cid title : String)
    (hcid : cid ≠ "")
    (htitle : title ≠ "")
    (hbase : slugify title ≠ "")
    (hpaths : ∀ p ∈ db.seo_paths, iexact p.final_pathname_string (slugify title) = false)
    (hcamps : ∀ c ∈ db.campaigns, (match c.seo_friendly_path with
      | some sp => iexact sp (slugify title)
      | none => false) = false) :
    (generate_seo_friendly_path db rng1 cid (some title)).2.1.seo_friendly_path =
      slugify title ∧
    (generate_seo_friendly_path db rng1 cid (some title)).2.1.success = true ∧
    (generate_seo_friendly_path (generate_seo_friendly_path db rng1 cid (some title)).1
        rng2 cid (some title)).2.1.seo_friendly_path = slugify title ∧
    (generate_seo_friendly_path (generate_seo_friendly_path db rng1 cid (some title)).1
        rng2 cid (some title)).2.1.seo_friendly_path_found = true ∧
    (generate_seo_friendly_path (generate_seo_friendly_path db rng1 cid (some title)).1
        rng2 cid (some title)).2.1.seo_friendly_path_created = false ∧
    (generate_seo_friendly_path (generate_seo_friendly_path db rng1 cid (some title)).1
        rng2 cid (some title)).2.1.success = true := by
  have hf1 : (db.seo_paths.filter (fun p =>
      p.campaignx_we_vote_id == cid && iexact p.final_pathname_string (slugify title))) = [] :=
    List.filter_eq_nil_iff.mpr (fun p hp => by simp [hpaths p hp])
  have hf2 : (db.seo_paths.filter (fun p =>
      iexact p.final_pathname_string (slugify title))) = [] :=
    List.filter_eq_nil_iff.mpr (fun p hp => by simp [hpaths p hp])
  have hf3 : (db.campaigns.filter (fun c =>
      match c.seo_friendly_path with
      | some sp => iexact sp (slugify title)
      | none => false)) = [] :=
    List.filter_eq_nil_iff.mpr (fun c hc => by simp [hcamps c hc])
  have h1 : generate_seo_friendly_path db rng1 cid (some title) =
      ({ db with seo_paths := db.seo_paths ++
          [{ campaignx_we_vote_id := cid, campaign_title := title,
             base_pathname_string := slugify title, pathname_modifier := none,
             final_pathname_string := slugify title }] },
       ⟨slugify title, true, true,
        "CAMPAIGNX_SEO_FRIENDLY_PATH_CREATED FINAL_PATHNAME_STRING_GENERATED ", true⟩, 0) := by
    simp [generate_seo_friendly_path, hf1, hf2, hf3, posStr, posNat, hcid, htitle, hbase]
  rw [h1]
  have hrow : ((db.seo_paths ++
      [{ campaignx_we_vote_id := cid, campaign_title := title,
         base_pathname_string := slugify title, pathname_modifier := none,
         final_pathname_string := slugify title : CampaignXSEOFriendlyPath }]).filter (fun p =>
      p.campaignx_we_vote_id == cid && iexact p.final_pathname_string (slugify title))) =
      [{ campaignx_we_vote_id := cid, campaign_title := title,
         base_pathname_string := slugify title, pathname_modifier := none,
         final_pathname_string := slugify title }] := by
    rw [List.filter_append, hf1]
    simp [iexact]
  have h2 : generate_seo_friendly_path
      ({ db with seo_paths := db.seo_paths ++
          [{ campaignx_we_vote_id := cid, campaign_title := title,
             base_pathname_string := slugify title, pathname_modifier := none,
             final_pathname_string := slugify title }] })
      rng2 cid (some title) =
      ({ db with seo_paths := db.seo_paths ++
          [{ campaignx_we_vote_id := cid, campaign_title := title,
             base_pathname_string := slugify title, pathname_modifier := none,
             final_pathname_string := slugify title }] },
       ⟨slugify title, false, true, "PATHNAME_FOUND-OWNED_BY_CAMPAIGNX ", true⟩, 0) := by
    simp [generate_seo_friendly_path, posStr, posNat, hcid, htitle, hbase, hrow]
  rw [h2]
  exact ⟨rfl, rfl, rfl, rfl, rfl, rfl⟩

/-- C3 witness: concrete run of the amended theorem on the empty store. -/
theorem generate_seo_friendly_path_repeat_when_base_free_witness :
    ("wv02camp1" ≠ "") ∧ ("Save The Bay" ≠ "") ∧ (slugify "Save The Bay" ≠ "") ∧
    ((generate_seo_friendly_path emptyStore rngWxyz "wv02camp1"
        (some "Save The Bay")).2.1.seo_friendly_path = slugify "Save The Bay" ∧
     (generate_seo_friendly_path emptyStore rngWxyz "wv02camp1"
        (some "Save The Bay")).2.1.success = true ∧
     (generate_seo_friendly_path
        (generate_seo_friendly_path emptyStore rngWxyz "wv02camp1" (some "Save The Bay")).1
        rngWxyz "wv02camp1" (some "Save The Bay")).2.1.seo_friendly_path =
       slugify "Save The Bay" ∧
     (generate_seo_friendly_path
        (generate_seo_friendly_path emptyStore rngWxyz "wv02camp1" (some "Save The Bay")).1
        rngWxyz "wv02camp1" (some "Save The Bay")).2.1.seo_friendly_path_found = true ∧
     (generate_seo_friendly_path
        (generate_seo_friendly_path emptyStore rngWxyz "wv02camp1" (some "Save The Bay")).1
        rngWxyz "wv02camp1" (some "Save The Bay")).2.1.seo_friendly_path_created = false ∧
     (generate_seo_friendly_path
        (generate_seo_friendly_path emptyStore rngWxyz "wv02camp1" (some "Save The Bay")).1
        rngWxyz "wv02camp1" (some "Save The Bay")).2.1.success = true) :=
  ⟨by decide, by decide, by decide,
   generate_seo_friendly_path_repeat_when_base_free emptyStore rngWxyz rngWxyz
     "wv02camp1" "Save The Bay" (by decide) (by decide) (by decide)
     (by intro p hp; simp [emptyStore] at hp) (by intro c hc; simp [emptyStore] at hc)⟩

/-- C4: evaluation of the allocator on a store where the base slug and the
first suffixed candidate are both taken while fresh suffixes remain available
from the oracle.  Exactly one random suffix is ever drawn: after its
collision the reviewed-list loop condition is permanently false, the outer
loop spins to its 1000 bound without generating further candidates, and the
call fails with FAILED_TO_FIND_UNIQUE_URL rather than trying up to 50 fresh
suffixes per outer attempt (the 50-attempt
CAMPAIGNX_MODIFIER_SAFETY_VALVE_EXCEEDED branch is unreachable). -/
theorem generate_seo_friendly_path_single_suffix_then_failure :
    (generate_seo_friendly_path storeSuffixCollision rngAbcdThenFresh "wv02camp1"
      (some "Save The Bay")).2.1.success = false ∧
    (generate_seo_friendly_path storeSuffixCollision rngAbcdThenFresh "wv02camp1"
      (some "Save The Bay")).2.2 = 1 ∧
    (generate_seo_friendly_path storeSuffixCollision rngAbcdThenFresh "wv02camp1"
      (some "Save The Bay")).2.1.status =
      "PATHNAME_FOUND-OWNED_BY_ANOTHER_CAMPAIGNX FAILED_TO_FIND_UNIQUE_URL " ∧
    (generate_seo_friendly_path storeSuffixCollision rngAbcdThenFresh "wv02camp1"
      (some "Save The Bay")).1 = storeSuffixCollision := by
  set_option maxRecDepth 200000 in decide

/-- C6: the no-search public listing never contains a campaign that is in
draft mode, or blocked, or below the 5-supporter minimum without the waiver;
and a campaign passing every other gate with the waiver set is listed (when
the store fits within the query limit). -/
theorem retrieve_campaignx_list_draft_blocked_minimum_gate
    (db : Store) (today limit : Nat) (c : CampaignX) :
    (c ∈ retrieve_campaignx_list db today none limit →
      c.in_draft_mode = false ∧ c.is_blocked_by_we_vote = false ∧
      (SUPPORTERS_COUNT_MINIMUM_FOR_LISTING ≤ c.supporters_count ∨
        c.supporters_count_minimum_ignored = true)) ∧
    (c ∈ db.campaigns → c.supporters_count_minimum_ignored = true →
      c.in_draft_mode = false → c.is_blocked_by_we_vote = false →
      c.is_in_team_review_mode = false → c.is_not_promoted_by_we_vote = false →
      c.is_still_active = true → c.is_ok_to_promote_on_we_vote = true →
      (∀ d, c.final_election_date_as_integer = some d →
        today + FINAL_ELECTION_DATE_COOL_DOWN < d) →
      db.campaigns.length ≤ limit →
      c ∈ retrieve_campaignx_list db today none limit) := by
  constructor
  · intro hmem
    have hfil : c ∈ db.campaigns.filter (fun c =>
        campaignx_list_default_filter today c || false) := by
      have := List.take_subset limit _ hmem
      rwa [List.mem_insertionSort] at this
    have hc := (List.mem_filter.mp hfil).2
    simp only [Bool.or_false, campaignx_list_default_filter, Bool.and_eq_true,
      Bool.not_eq_true', Bool.or_eq_true, decide_eq_true_eq, and_assoc] at hc
    exact ⟨hc.1, hc.2.1, hc.2.2.2.2.2.2.1⟩
  · intro hmem hwaiver hdraft hblocked hreview hpromoted hactive hok hdate hlen
    have hel : campaignx_list_default_filter today c = true := by
      simp only [campaignx_list_default_filter, Bool.and_eq_true, Bool.not_eq_true',
        Bool.or_eq_true, decide_eq_true_eq, and_assoc]
      refine ⟨hdraft, hblocked, hreview, hpromoted, hactive, hok, Or.inr hwaiver, ?_⟩
      cases hd : c.final_election_date_as_integer with
      | none => simp
      | some d => simpa using hdate d hd
    have hfil : c ∈ db.campaigns.filter (fun c =>
        campaignx_list_default_filter today c || false) :=
      List.mem_filter.mpr ⟨hmem, by simp [hel]⟩
    unfold retrieve_campaignx_list
    have hlen2 : (List.insertionSort (fun a b => b.in_draft_mode ≤ a.in_draft_mode)
        (db.campaigns.filter (fun c =>
          campaignx_list_default_filter today c || false))).length ≤ limit := by
      rw [List.length_insertionSort]
      exact le_trans (List.length_filter_le _ _) hlen
    rw [List.take_of_length_le hlen2, List.mem_insertionSort]
    exact hfil

/-- C7: a campaign whose final election date equals today plus 7 (the
cool-down) never appears in the no-search public listing, while a campaign
passing every other gate whose final election date equals today plus 8 is
listed (when the store fits within the query limit). -/
theorem retrieve_campaignx_list_election_date_cool_down
    (db : Store) (today limit : Nat) (c : CampaignX) :
    (c.final_election_date_as_integer = some (today + 7) →
      c ∉ retrieve_campaignx_list db today none limit) ∧
    (c ∈ db.campaigns → c.final_election_date_as_integer = some (today + 8) →
      c.in_draft_mode = false → c.is_blocked_by_we_vote = false →
      c.is_in_team_review_mode = false → c.is_not_promoted_by_we_vote = false →
      c.is_still_active = true → c.is_ok_to_promote_on_we_vote = true →
      (SUPPORTERS_COUNT_MINIMUM_FOR_LISTING ≤ c.supporters_count ∨
        c.supporters_count_minimum_ignored = true) →
      db.campaigns.length ≤ limit →
      c ∈ retrieve_campaignx_list db today none limit) := by
  constructor
  · intro hdate hmem
    have hfil : c ∈ db.campaigns.filter (fun c =>
        campaignx_list_default_filter today c || false) := by
      have := List.take_subset limit _ hmem
      rwa [List.mem_insertionSort] at this
    have hc := (List.mem_filter.mp hfil).2
    simp only [Bool.or_false, campaignx_list_default_filter, Bool.and_eq_true, hdate,
      FINAL_ELECTION_DATE_COOL_DOWN, decide_eq_true_eq] at hc
    omega
  · intro hmem hdate hdraft hblocked hreview hpromoted hactive hok hcount hlen
    have hel : campaignx_list_default_filter today c = true := by
      simp only [campaignx_list_default_filter, Bool.and_eq_true, Bool.not_eq_true',
        Bool.or_eq_true, decide_eq_true_eq, hdate, FINAL_ELECTION_DATE_COOL_DOWN, and_assoc]
      refine ⟨hdraft, hblocked, hreview, hpromoted, hactive, hok, ?_, by omega⟩
      rcases hcount with h | h
      · exact Or.inl h
      · exact Or.inr h
    have hfil : c ∈ db.campaigns.filter (fun c =>
        campaignx_list_default_filter today c || false) :=
      List.mem_filter.mpr ⟨hmem, by simp [hel]⟩
    unfold retrieve_campaignx_list
    have hlen2 : (List.insertionSort (fun a b => b.in_draft_mode ≤ a.in_draft_mode)
        (db.campaigns.filter (fun c =>
          campaignx_list_default_filter today c || false))).length ≤ limit := by
      rw [List.length_insertionSort]
      exact le_trans (List.length_filter_le _ _) hlen
    rw [List.take_of_length_le hlen2, List.mem_insertionSort]
    exact hfil

/-- C6 witness: concrete run — the waived 3-supporter campaign satisfies the
eligibility facts and appears in the listing. -/
theorem retrieve_campaignx_list_draft_blocked_minimum_gate_witness :
    (waiverCampaign.in_draft_mode = false ∧ waiverCampaign.is_blocked_by_we_vote = false ∧
      (SUPPORTERS_COUNT_MINIMUM_FOR_LISTING ≤ waiverCampaign.supporters_count ∨
        waiverCampaign.supporters_count_minimum_ignored = true)) ∧
    waiverCampaign ∈ retrieve_campaignx_list storeWaiver 20261012 none 25 :=
  ⟨(retrieve_campaignx_list_draft_blocked_minimum_gate storeWaiver 20261012 25
      waiverCampaign).1 (by decide),
   (retrieve_campaignx_list_draft_blocked_minimum_gate storeWaiver 20261012 25
      waiverCampaign).2 (by decide) (by decide) (by decide) (by decide) (by decide)
      (by decide) (by decide) (by decide)
      (by intro d hd; simp [waiverCampaign, sampleCampaign] at hd) (by decide)⟩

/-- C7 witness: concrete run — today+7 is excluded, today+8 is included. -/
theorem retrieve_campaignx_list_election_date_cool_down_witness :
    coolDownExcluded ∉ retrieve_campaignx_list storeCoolDown 20261012 none 25 ∧
    coolDownIncluded ∈ retrieve_campaignx_list storeCoolDown 20261012 none 25 :=
  ⟨(retrieve_campaignx_list_election_date_cool_down storeCoolDown 20261012 25
      coolDownExcluded).1 (by decide),
   (retrieve_campaignx_list_election_date_cool_down storeCoolDown 20261012 25
      coolDownIncluded).2 (by decide) (by decide) (by decide) (by decide) (by decide)
      (by decide) (by decide) (by decide) (Or.inl (by decide)) (by decide)⟩

end WeVote
